import Mathlib

/-!
Shallow embedding of `slack-blackhole` (`main.go`): a daemon that deletes
Slack messages and files a configurable TTL after their creation.

Modelling conventions:
* Go `int` values (TTLs, retry counts) are `Int`; wall-clock instants and
  durations are `Int` seconds.
* External API results are oracle parameters (`results`, `getFileInfo`,
  `hasMore`, `filesPage`): one value per call, supplied by the environment.
* Each concurrent deletion task is embedded as a function from its inputs
  and oracles to the timed trace of events it performs.
* `<-API_READY` (the rate-limiter ticker) is the `acquireToken` action; the
  time spent waiting on it is an oracle `tokenWait : Nat → Nat` (one
  non-negative wait per acquisition).
-/

namespace SlackBlackhole

/-- Embeds `type Config struct` (main.go:93-97): one per-channel policy entry. -/
structure Config where
  Channel : String
  MessageTTL : Int
  FileTTL : Int
deriving Repr, DecidableEq

/-- Go map read `CONFIG_BY_ID[ch].MessageTTL`: a missing key yields the zero
value `Config{}`, whose `MessageTTL` is 0.  `CONFIG_BY_ID` is modelled as a
total function into `Option Config`. -/
def cfgMessageTTL (CONFIG_BY_ID : String → Option Config) (ch : String) : Int :=
  match CONFIG_BY_ID ch with
  | some c => c.MessageTTL
  | none => 0

/-- Go map read `CONFIG_BY_ID[ch].FileTTL` (missing key reads as 0). -/
def cfgFileTTL (CONFIG_BY_ID : String → Option Config) (ch : String) : Int :=
  match CONFIG_BY_ID ch with
  | some c => c.FileTTL
  | none => 0

/-- Embeds the effective message-TTL computation of `handleMessage`
(main.go:190-194): `ttl := DEFAULT_MESSAGE_TTL; if cfgttl > 0 { ttl = cfgttl }`. -/
def effMessageTTL (CONFIG_BY_ID : String → Option Config)
    (DEFAULT_MESSAGE_TTL : Int) (ch : String) : Int :=
  let cfgttl := cfgMessageTTL CONFIG_BY_ID ch
  if cfgttl > 0 then cfgttl else DEFAULT_MESSAGE_TTL

/-- Embeds the effective file-TTL computation of `handleFile`
(main.go:253-257): `ttl := DEFAULT_FILE_TTL; if cfgttl > 0 { ttl = cfgttl }`. -/
def effFileTTL (CONFIG_BY_ID : String → Option Config)
    (DEFAULT_FILE_TTL : Int) (ch : String) : Int :=
  let cfgttl := cfgFileTTL CONFIG_BY_ID ch
  if cfgttl > 0 then cfgttl else DEFAULT_FILE_TTL

/-- The fields of `slack.Message` that `handleMessage` reads. -/
structure MessageItem where
  Timestamp : String
  SubType : String
deriving Repr, DecidableEq

/-- Embeds `handleMessage` (main.go:188-199) as the deletion task it spawns:
`some (ch, ts, ttl)` when `deleteMessage(ch, msg, ttl)` is invoked, `none`
when no task is created (deleted-message subtype, or resolved TTL ≤ 0). -/
def handleMessage (CONFIG_BY_ID : String → Option Config)
    (DEFAULT_MESSAGE_TTL : Int) (ch : String) (msg : MessageItem) :
    Option (String × String × Int) :=
  if msg.SubType = "message_deleted" then none
  else
    let ttl := effMessageTTL CONFIG_BY_ID DEFAULT_MESSAGE_TTL ch
    if ttl > 0 then some (ch, msg.Timestamp, ttl) else none

/-- The fields of `slack.File` that `handleFile` reads. -/
structure File where
  ID : String
  Channels : List String
deriving Repr, DecidableEq

/-- Outcome of `handleFile`: the process dies (`fatal`, when the metadata
refetch errors), the file is dropped, or a `deleteFile` task is spawned. -/
inductive HandleFileResult where
  | fatal (id : String)
  | skipped
  | scheduled (id : String) (ch : String) (ttl : Int)
deriving Repr, DecidableEq

/-- Embeds the refetch at the top of `handleFile` (main.go:236-245): when the
event payload carries no channels, `RTM.GetFileInfo` re-fetches the file; the
oracle `getFileInfo` returns `none` exactly when that call errors. -/
def fileAfterRefetch (getFileInfo : String → Option File) (file : File) :
    Option File :=
  if file.Channels.length = 0 then getFileInfo file.ID else some file

/-- Embeds `handleFile` (main.go:234-261).  The Go code rejects
`len(file.Channels) != 1` and then reads `file.Channels[0]`; both steps are the
single pattern match on a one-element list. -/
def handleFile (CONFIG_BY_ID : String → Option Config) (DEFAULT_FILE_TTL : Int)
    (getFileInfo : String → Option File) (file : File) : HandleFileResult :=
  match fileAfterRefetch getFileInfo file with
  | none => .fatal file.ID
  | some f =>
    match f.Channels with
    | [ch] =>
      let ttl := effFileTTL CONFIG_BY_ID DEFAULT_FILE_TTL ch
      if ttl > 0 then .scheduled f.ID ch ttl else .skipped
    | _ => .skipped

/-- One observable action of the program: a rate-limiter token acquisition,
an external API call, a backoff sleep, or a log line. -/
inductive Action where
  | acquireToken
  | callDeleteMessage (ch ts : String)
  | callDeleteFile (id : String)
  | callGetConversations
  | callGetChannelHistory (ch : String)
  | callGetFiles (page : Nat)
  | callGetFileInfo (id : String)
  | sleep (d : Int)
  | logInfo (s : String)
  | logError (s : String)
deriving Repr, DecidableEq

/-- A timed action: `time` is the wall-clock instant (in seconds) at which
the action happens. -/
structure Event where
  time : Int
  act : Action
deriving Repr, DecidableEq

/-- Embeds the retry loop of `deleteMessage` (main.go:167-180):
`for i := 0; i < MAX_RETRIES; i++ { <-API_READY; DeleteMessage; ... }`.
`fuel` is the number of loop iterations left, `i` the attempt index, `now` the
current instant, `backoff` the current backoff duration (1 at entry, doubled
after every failed attempt).  `results i` is the outcome of the `i`-th
`RTM.DeleteMessage` call (`none` = success, `some e` = error string `e`);
`tokenWait i` is the time spent blocked on `<-API_READY` before that call.
When the loop exhausts its iterations the code logs the permanent failure. -/
def deleteMessageRetry (ch ts : String) (results : Nat → Option String)
    (tokenWait : Nat → Nat) (fuel : Nat) (i : Nat) (now : Int) (backoff : Int) :
    List Event :=
  match fuel with
  | 0 => [⟨now, .logError ("Failed to delete message " ++ ch ++ "(" ++ ts ++ ")")⟩]
  | f + 1 =>
    let t := now + tokenWait i
    ⟨t, .acquireToken⟩ :: ⟨t, .callDeleteMessage ch ts⟩ ::
    (match results i with
     | some e =>
       if e = "message_not_found" then
         [⟨t, .logInfo ("Message deleted: " ++ ch ++ "(" ++ ts ++ ")")⟩]
       else
         ⟨t, .logError ("DeleteMessage(" ++ ch ++ ", " ++ ts ++ ") failed: " ++ e)⟩ ::
         ⟨t, .sleep backoff⟩ ::
         deleteMessageRetry ch ts results tokenWait f (i + 1) (t + backoff) (backoff * 2)
     | none => [⟨t, .logInfo ("Message deleted: " ++ ch ++ "(" ++ ts ++ ")")⟩])

/-- Embeds `toBeDeleted` (main.go:145-151): creation instant plus TTL seconds
(the float timestamp parse of `unixTime` is abstracted into the already-parsed
creation instant `c`). -/
def toBeDeleted (c ttl : Int) : Int := c + ttl

/-- Embeds the goroutine body of `deleteMessage` (main.go:159-180): sleep via
`<-time.After(tbd.Sub(time.Now()))` until the due instant (a non-positive
duration fires immediately, hence `max start tbd`), log the deletion line,
return if `DRY_RUN`, otherwise run the retry loop with backoff 1.
`start` is the instant the goroutine begins; `MAX_RETRIES` is the Go int flag
(`toNat`: a non-positive bound runs zero loop iterations, as in Go). -/
def deleteMessageTask (ch ts : String) (c ttl start : Int) (DRY_RUN : Bool)
    (MAX_RETRIES : Int) (results : Nat → Option String) (tokenWait : Nat → Nat) :
    List Event :=
  let tbd := toBeDeleted c ttl
  let t0 := max start tbd
  ⟨t0, .logInfo ("Delete message: " ++ ch ++ "(" ++ ts ++ ")")⟩ ::
  if DRY_RUN then []
  else deleteMessageRetry ch ts results tokenWait MAX_RETRIES.toNat 0 t0 1

/-- Embeds the retry loop of `deleteFile` (main.go:217-230), identical in shape
to the message loop with `RTM.DeleteFile` and the `"file_deleted"`
already-absent error class. -/
def deleteFileRetry (id : String) (results : Nat → Option String)
    (tokenWait : Nat → Nat) (fuel : Nat) (i : Nat) (now : Int) (backoff : Int) :
    List Event :=
  match fuel with
  | 0 => [⟨now, .logError ("Failed to delete file " ++ id)⟩]
  | f + 1 =>
    let t := now + tokenWait i
    ⟨t, .acquireToken⟩ :: ⟨t, .callDeleteFile id⟩ ::
    (match results i with
     | some e =>
       if e = "file_deleted" then
         [⟨t, .logInfo ("File deleted: " ++ id)⟩]
       else
         ⟨t, .logError ("DeleteFile(" ++ id ++ ") failed: " ++ e)⟩ ::
         ⟨t, .sleep backoff⟩ ::
         deleteFileRetry id results tokenWait f (i + 1) (t + backoff) (backoff * 2)
     | none => [⟨t, .logInfo ("File deleted: " ++ id)⟩])

/-- Embeds the goroutine body of `deleteFile` (main.go:210-230); `c` is the
file's creation instant `file.Timestamp.Time()`. -/
def deleteFileTask (id : String) (c ttl start : Int) (DRY_RUN : Bool)
    (MAX_RETRIES : Int) (results : Nat → Option String) (tokenWait : Nat → Nat) :
    List Event :=
  let tbd := c + ttl
  let t0 := max start tbd
  ⟨t0, .logInfo ("Delete File: id=" ++ id)⟩ ::
  if DRY_RUN then []
  else deleteFileRetry id results tokenWait MAX_RETRIES.toNat 0 t0 1

/-- Recognises the external-API-call actions. -/
def isApiCall : Action → Bool
  | .callDeleteMessage _ _ => true
  | .callDeleteFile _ => true
  | .callGetConversations => true
  | .callGetChannelHistory _ => true
  | .callGetFiles _ => true
  | .callGetFileInfo _ => true
  | _ => false

/-- Recognises the two external delete calls. -/
def isDeleteApi : Action → Bool
  | .callDeleteMessage _ _ => true
  | .callDeleteFile _ => true
  | _ => false

/-- Recognises error-level log lines. -/
def isLogError : Action → Bool
  | .logError _ => true
  | _ => false

/-- The list of backoff-sleep durations occurring in a trace, in order. -/
def sleepDurations (tr : List Event) : List Int :=
  tr.filterMap fun ev =>
    match ev.act with
    | .sleep d => some d
    | _ => none

/-- Action trace of `handleFile` (main.go:234-245): the metadata refetch is the
single place it touches the API, and it is guarded by `<-API_READY`. -/
def handleFileTrace (file : File) : List Action :=
  if file.Channels.length = 0 then [.acquireToken, .callGetFileInfo file.ID]
  else []

/-- Action trace of `inspectHistory` (main.go:270-286):
`h := &slack.History{HasMore: true}; for h.HasMore { <-API_READY;
GetChannelHistory; ... }`.  `hasMore k` is the `HasMore` field of the `k`-th
response; `fuel` bounds the number of iterations modelled (the loop itself has
no bound).  `handleMessage` on each returned message makes no API call. -/
def inspectHistoryTrace (ch : String) (hasMore : Nat → Bool) (fuel k : Nat) :
    List Action :=
  match fuel with
  | 0 => []
  | f + 1 =>
    .acquireToken :: .callGetChannelHistory ch ::
    (if hasMore k then inspectHistoryTrace ch hasMore f (k + 1) else [])

/-- Action trace of `inspectFiles` (main.go:288-305):
`for hasMore := true; hasMore; params.Page++ { RTM.GetFiles(params); ... }`.
Note the loop body calls `RTM.GetFiles` with NO preceding `<-API_READY`.
`filesPage p` is the `p`-th response: the files of the page together with
`(paging.Page, paging.Pages)`; the loop stops when the two coincide.
`NewGetFilesParameters` starts at page 1. -/
def inspectFilesTrace (filesPage : Nat → List File × Int × Int) (fuel page : Nat) :
    List Action :=
  match fuel with
  | 0 => []
  | f + 1 =>
    let r := filesPage page
    .callGetFiles page ::
    (r.1.flatMap handleFileTrace ++
     (if r.2.1 = r.2.2 then [] else inspectFilesTrace filesPage f (page + 1)))

/-- Embeds the skip guard of `inspectPast` (main.go:317-319):
`if DEFAULT_MESSAGE_TTL == 0 && CONFIG_BY_ID[ch.ID].MessageTTL == 0 { continue }`. -/
def inspectPastSkips (CONFIG_BY_ID : String → Option Config)
    (DEFAULT_MESSAGE_TTL : Int) (ch : String) : Bool :=
  DEFAULT_MESSAGE_TTL == 0 && cfgMessageTTL CONFIG_BY_ID ch == 0

/-- Action trace of `inspectPast` (main.go:307-325): `<-API_READY`, channel
listing, then per non-skipped channel its history walk, then the file walk.
`channels` is the listing result; `hasMore ch` is the history oracle of
channel `ch`. -/
def inspectPastTrace (CONFIG_BY_ID : String → Option Config)
    (DEFAULT_MESSAGE_TTL : Int) (channels : List String)
    (hasMore : String → Nat → Bool) (histFuel : Nat)
    (filesPage : Nat → List File × Int × Int) (filesFuel : Nat) : List Action :=
  .acquireToken :: .callGetConversations ::
  ((channels.flatMap fun ch =>
      if inspectPastSkips CONFIG_BY_ID DEFAULT_MESSAGE_TTL ch then []
      else inspectHistoryTrace ch (hasMore ch) histFuel 0) ++
   inspectFilesTrace filesPage filesFuel 1)

/-- Action trace of `initTTL` (main.go:99-131): with no config file it returns
before any API call; otherwise it calls `RTM.GetConversations` — with NO
preceding `<-API_READY` (the file open/read/parse steps are local). -/
def initTTLTrace (CONFIG_FILE : String) : List Action :=
  if CONFIG_FILE = "" then [] else [.callGetConversations]

/-- Helper for `paced`: scans a trace remembering the previous action; each
API-call action that is not `exempt` must have `acquireToken` as its
immediate predecessor. -/
def pacedFrom (exempt : Action → Bool) (prev : Option Action) :
    List Action → Bool
  | [] => true
  | a :: rest =>
    (!(isApiCall a) || exempt a || prev == some .acquireToken) &&
    pacedFrom exempt (some a) rest

/-- A trace is `paced` when every non-exempt external API call in it is
immediately preceded by a rate-limiter token acquisition. -/
def paced (exempt : Action → Bool) (tr : List Action) : Bool :=
  pacedFrom exempt none tr

/-- Recognises the file-listing call, the one call site `inspectFiles` issues
without a token. -/
def isGetFiles : Action → Bool
  | .callGetFiles _ => true
  | _ => false

/-- The always-false exemption: `paced noExempt` demands a token before every
single API call. -/
def noExempt : Action → Bool := fun _ => false

/-- A concrete two-entry policy map in the style of the README example,
used to instantiate theorems with hypotheses. -/
def cfgDevNull : String → Option Config := fun ch =>
  if ch = "C001" then some ⟨"dev_null", 600, 600⟩ else none

/-- C4: the effective TTL for a channel and kind is the per-channel override
when that override is > 0, whatever the global default is, and otherwise
(override ≤ 0, including an absent config entry) the global default for the
kind. -/
theorem C4_effective_ttl (CONFIG_BY_ID : String → Option Config)
    (dmsg dfile : Int) (ch : String) :
    (0 < cfgMessageTTL CONFIG_BY_ID ch →
      effMessageTTL CONFIG_BY_ID dmsg ch = cfgMessageTTL CONFIG_BY_ID ch) ∧
    (cfgMessageTTL CONFIG_BY_ID ch ≤ 0 →
      effMessageTTL CONFIG_BY_ID dmsg ch = dmsg) ∧
    (CONFIG_BY_ID ch = none → effMessageTTL CONFIG_BY_ID dmsg ch = dmsg) ∧
    (0 < cfgFileTTL CONFIG_BY_ID ch →
      effFileTTL CONFIG_BY_ID dfile ch = cfgFileTTL CONFIG_BY_ID ch) ∧
    (cfgFileTTL CONFIG_BY_ID ch ≤ 0 →
      effFileTTL CONFIG_BY_ID dfile ch = dfile) ∧
    (CONFIG_BY_ID ch = none → effFileTTL CONFIG_BY_ID dfile ch = dfile) := by
  refine ⟨fun h => ?_, fun h => ?_, fun h => ?_, fun h => ?_, fun h => ?_,
    fun h => ?_⟩ <;>
    simp_all [effMessageTTL, effFileTTL, cfgMessageTTL, cfgFileTTL]

/-- Witness for C4 at the concrete policy map `cfgDevNull`: channel `C001`
has override 600 (> 0), so the effective message TTL is the override even
though the default is 30; channel `C999` has no entry, so the default 30
applies. -/
theorem C4_effective_ttl_witness :
    effMessageTTL cfgDevNull 30 "C001" = cfgMessageTTL cfgDevNull "C001" ∧
    effMessageTTL cfgDevNull 30 "C999" = 30 :=
  ⟨(C4_effective_ttl cfgDevNull 30 30 "C001").1 (by decide),
   (C4_effective_ttl cfgDevNull 30 30 "C999").2.2.1 (by decide)⟩

/-- C7: when the resolved effective TTL of an observed message or file is zero
or negative, no deletion task is created (`handleMessage` spawns nothing;
`handleFile` returns `.skipped`). -/
theorem C7_nonpositive_ttl_no_task (CONFIG_BY_ID : String → Option Config)
    (dmsg dfile : Int) (ch : String) (msg : MessageItem)
    (getFileInfo : String → Option File) (file f : File) :
    (effMessageTTL CONFIG_BY_ID dmsg ch ≤ 0 →
      handleMessage CONFIG_BY_ID dmsg ch msg = none) ∧
    (fileAfterRefetch getFileInfo file = some f → f.Channels = [ch] →
      effFileTTL CONFIG_BY_ID dfile ch ≤ 0 →
      handleFile CONFIG_BY_ID dfile getFileInfo file = .skipped) := by
  constructor
  · intro h
    unfold handleMessage
    split
    · rfl
    · simp only [if_neg (not_lt.mpr h)]
  · intro hre hch h
    simp [handleFile, hre, hch, not_lt.mpr h]

/-- Witness for C7: with the `cfgDevNull` policy and global defaults 0, a
message and a single-channel file in the unconfigured channel `C999` resolve
to TTL 0 and spawn no deletion task. -/
theorem C7_nonpositive_ttl_no_task_witness :
    handleMessage cfgDevNull 0 "C999" ⟨"1500000000.000100", ""⟩ = none ∧
    handleFile cfgDevNull 0 (fun _ => none) ⟨"F001", ["C999"]⟩ = .skipped :=
  ⟨(C7_nonpositive_ttl_no_task cfgDevNull 0 0 "C999" ⟨"1500000000.000100", ""⟩
      (fun _ => none) ⟨"F001", ["C999"]⟩ ⟨"F001", ["C999"]⟩).1 (by decide),
   (C7_nonpositive_ttl_no_task cfgDevNull 0 0 "C999" ⟨"1500000000.000100", ""⟩
      (fun _ => none) ⟨"F001", ["C999"]⟩ ⟨"F001", ["C999"]⟩).2 rfl rfl (by decide)⟩

/-- C8: with the dry-run flag set, a deletion task's whole trace is the single
"Delete ..." log line, emitted at the instant the TTL sleep completes (the due
instant `c + ttl`, or the task's start when that is already past); in
particular no external API call of any kind is issued. -/
theorem C8_dry_run (ch ts id : String) (c ttl start cf ttlf startf : Int)
    (MR : Int) (resM resF : Nat → Option String) (wM wF : Nat → Nat) :
    deleteMessageTask ch ts c ttl start true MR resM wM =
      [⟨max start (c + ttl),
        .logInfo ("Delete message: " ++ ch ++ "(" ++ ts ++ ")")⟩] ∧
    (deleteMessageTask ch ts c ttl start true MR resM wM).filter
      (fun ev => isApiCall ev.act) = [] ∧
    deleteFileTask id cf ttlf startf true MR resF wF =
      [⟨max startf (cf + ttlf), .logInfo ("Delete File: id=" ++ id)⟩] ∧
    (deleteFileTask id cf ttlf startf true MR resF wF).filter
      (fun ev => isApiCall ev.act) = [] :=
  ⟨rfl, rfl, rfl, rfl⟩

/-- C9: a file whose channel list, after the possible metadata refetch, has
more than one entry is never scheduled for deletion, whatever the TTL
configuration. -/
theorem C9_multichannel_file_never_scheduled
    (CONFIG_BY_ID : String → Option Config) (dfile : Int)
    (getFileInfo : String → Option File) (file f : File)
    (hre : fileAfterRefetch getFileInfo file = some f)
    (hlen : 1 < f.Channels.length) :
    handleFile CONFIG_BY_ID dfile getFileInfo file = .skipped := by
  rcases h : f.Channels with _ | ⟨a, tl⟩
  · rw [h] at hlen; simp at hlen
  · rcases tl with _ | ⟨b, tl2⟩
    · rw [h] at hlen; simp at hlen
    · simp [handleFile, hre, h]

/-- Witness for C9: a file shared to two channels, both with positive TTL
overrides, is still dropped. -/
theorem C9_multichannel_file_never_scheduled_witness :
    handleFile cfgDevNull 600 (fun _ => none) ⟨"F001", ["C001", "C002"]⟩ =
      .skipped :=
  C9_multichannel_file_never_scheduled cfgDevNull 600 (fun _ => none)
    ⟨"F001", ["C001", "C002"]⟩ ⟨"F001", ["C001", "C002"]⟩ rfl (by decide)

/-- C10: a file whose channel list is still empty after the metadata refetch
is silently dropped, exactly like the multi-channel case: the scheduling
branch requires a one-element channel list. -/
theorem C10_zero_channel_file_never_scheduled
    (CONFIG_BY_ID : String → Option Config) (dfile : Int)
    (getFileInfo : String → Option File) (file f : File)
    (hre : fileAfterRefetch getFileInfo file = some f)
    (hlen : f.Channels.length = 0) :
    handleFile CONFIG_BY_ID dfile getFileInfo file = .skipped := by
  rcases h : f.Channels with _ | ⟨a, tl⟩
  · simp [handleFile, hre, h]
  · rw [h] at hlen; simp at hlen

/-- Witness for C10: a file event with no channels whose refetch also comes
back without channels is dropped. -/
theorem C10_zero_channel_file_never_scheduled_witness :
    handleFile cfgDevNull 600 (fun _ => some ⟨"F001", []⟩) ⟨"F001", []⟩ =
      .skipped :=
  C10_zero_channel_file_never_scheduled cfgDevNull 600
    (fun _ => some ⟨"F001", []⟩) ⟨"F001", []⟩ ⟨"F001", []⟩ rfl rfl

/-- Unfolds one failing iteration of the message retry loop. -/
theorem deleteMessageRetry_fail_step (ch ts : String)
    (results : Nat → Option String) (w : Nat → Nat) (f i : Nat) (now b : Int)
    (e : String) (he : results i = some e) (hne : e ≠ "message_not_found") :
    deleteMessageRetry ch ts results w (f + 1) i now b =
      ⟨now + w i, .acquireToken⟩ ::
      ⟨now + w i, .callDeleteMessage ch ts⟩ ::
      ⟨now + w i, .logError ("DeleteMessage(" ++ ch ++ ", " ++ ts ++ ") failed: " ++ e)⟩ ::
      ⟨now + w i, .sleep b⟩ ::
      deleteMessageRetry ch ts results w f (i + 1) (now + w i + b) (b * 2) := by
  simp [deleteMessageRetry, he, hne]

/-- A successful or already-absent iteration ends the message retry loop with
the success log. -/
theorem deleteMessageRetry_done_step (ch ts : String)
    (results : Nat → Option String) (w : Nat → Nat) (f i : Nat) (now b : Int)
    (hdone : results i = none ∨ results i = some "message_not_found") :
    deleteMessageRetry ch ts results w (f + 1) i now b =
      [⟨now + w i, .acquireToken⟩,
       ⟨now + w i, .callDeleteMessage ch ts⟩,
       ⟨now + w i, .logInfo ("Message deleted: " ++ ch ++ "(" ++ ts ++ ")")⟩] := by
  rcases hdone with h | h <;> simp [deleteMessageRetry, h]

/-- List identity behind the doubling backoff: a backoff of `b` followed by
the sleeps of a loop entered with backoff `2 b` is the sleep list
`b, 2b, 4b, ...`. -/
theorem cons_double_pow (b : Int) (f : Nat) :
    b :: (List.range f).map (fun k => b * 2 * 2 ^ k) =
      (List.range (f + 1)).map (fun k => b * 2 ^ k) := by
  rw [List.range_succ_eq_map, List.map_cons, List.map_map]
  congr 1
  · simp
  · refine List.map_congr_left fun x _ => ?_
    simp [Function.comp, pow_succ]
    ring

/-- When every attempt fails with a non-absent error, the message retry loop
performs exactly `fuel` delete calls, sleeps the doubling backoffs
`b, 2b, 4b, ...`, and ends with the permanent-failure error log. -/
theorem deleteMessageRetry_all_fail (ch ts : String)
    (results : Nat → Option String) (w : Nat → Nat)
    (hfail : ∀ i, ∃ e, results i = some e ∧ e ≠ "message_not_found") :
    ∀ (fuel i : Nat) (now b : Int),
      ((deleteMessageRetry ch ts results w fuel i now b).filter
          (fun ev => isDeleteApi ev.act)).length = fuel ∧
      sleepDurations (deleteMessageRetry ch ts results w fuel i now b) =
        (List.range fuel).map (fun k => b * 2 ^ k) ∧
      ∃ t pre, deleteMessageRetry ch ts results w fuel i now b =
        pre ++ [⟨t, .logError ("Failed to delete message " ++ ch ++ "(" ++ ts ++ ")")⟩] := by
  intro fuel
  induction fuel with
  | zero => exact fun i now b => ⟨rfl, rfl, now, [], rfl⟩
  | succ f ih =>
    intro i now b
    obtain ⟨e, he, hne⟩ := hfail i
    obtain ⟨h1, h2, t, pre, h3⟩ := ih (i + 1) (now + w i + b) (b * 2)
    rw [deleteMessageRetry_fail_step ch ts results w f i now b e he hne]
    refine ⟨?_, ?_, t, ?_, ?_⟩
    · simp [List.filter_cons, isDeleteApi] at h1 ⊢
      exact h1
    · simp only [sleepDurations, List.filterMap_cons] at h2 ⊢
      rw [h2]
      exact cons_double_pow b f
    · exact ⟨now + w i, .acquireToken⟩ ::
        ⟨now + w i, .callDeleteMessage ch ts⟩ ::
        ⟨now + w i, .logError ("DeleteMessage(" ++ ch ++ ", " ++ ts ++ ") failed: " ++ e)⟩ ::
        ⟨now + w i, .sleep b⟩ :: pre
    · rw [h3]
      simp

/-- Unfolds one failing iteration of the file retry loop. -/
theorem deleteFileRetry_fail_step (id : String)
    (results : Nat → Option String) (w : Nat → Nat) (f i : Nat) (now b : Int)
    (e : String) (he : results i = some e) (hne : e ≠ "file_deleted") :
    deleteFileRetry id results w (f + 1) i now b =
      ⟨now + w i, .acquireToken⟩ ::
      ⟨now + w i, .callDeleteFile id⟩ ::
      ⟨now + w i, .logError ("DeleteFile(" ++ id ++ ") failed: " ++ e)⟩ ::
      ⟨now + w i, .sleep b⟩ ::
      deleteFileRetry id results w f (i + 1) (now + w i + b) (b * 2) := by
  simp [deleteFileRetry, he, hne]

/-- A successful or already-absent iteration ends the file retry loop with the
success log. -/
theorem deleteFileRetry_done_step (id : String)
    (results : Nat → Option String) (w : Nat → Nat) (f i : Nat) (now b : Int)
    (hdone : results i = none ∨ results i = some "file_deleted") :
    deleteFileRetry id results w (f + 1) i now b =
      [⟨now + w i, .acquireToken⟩,
       ⟨now + w i, .callDeleteFile id⟩,
       ⟨now + w i, .logInfo ("File deleted: " ++ id)⟩] := by
  rcases hdone with h | h <;> simp [deleteFileRetry, h]

/-- When every attempt fails with a non-absent error, the file retry loop
performs exactly `fuel` delete calls, sleeps the doubling backoffs, and ends
with the permanent-failure error log. -/
theorem deleteFileRetry_all_fail (id : String)
    (results : Nat → Option String) (w : Nat → Nat)
    (hfail : ∀ i, ∃ e, results i = some e ∧ e ≠ "file_deleted") :
    ∀ (fuel i : Nat) (now b : Int),
      ((deleteFileRetry id results w fuel i now b).filter
          (fun ev => isDeleteApi ev.act)).length = fuel ∧
      sleepDurations (deleteFileRetry id results w fuel i now b) =
        (List.range fuel).map (fun k => b * 2 ^ k) ∧
      ∃ t pre, deleteFileRetry id results w fuel i now b =
        pre ++ [⟨t, .logError ("Failed to delete file " ++ id)⟩] := by
  intro fuel
  induction fuel with
  | zero => exact fun i now b => ⟨rfl, rfl, now, [], rfl⟩
  | succ f ih =>
    intro i now b
    obtain ⟨e, he, hne⟩ := hfail i
    obtain ⟨h1, h2, t, pre, h3⟩ := ih (i + 1) (now + w i + b) (b * 2)
    rw [deleteFileRetry_fail_step id results w f i now b e he hne]
    refine ⟨?_, ?_, t, ?_, ?_⟩
    · simp [List.filter_cons, isDeleteApi] at h1 ⊢
      exact h1
    · simp only [sleepDurations, List.filterMap_cons] at h2 ⊢
      rw [h2]
      exact cons_double_pow b f
    · exact ⟨now + w i, .acquireToken⟩ ::
        ⟨now + w i, .callDeleteFile id⟩ ::
        ⟨now + w i, .logError ("DeleteFile(" ++ id ++ ") failed: " ++ e)⟩ ::
        ⟨now + w i, .sleep b⟩ :: pre
    · rw [h3]
      simp

/-- C3: for a deletion task all of whose delete attempts fail with a
non-"already absent" error, the programmed backoff sleeps are `1, 2, 4, ...`
(doubling each retry), the external delete operation is called exactly
`MAX_RETRIES.toNat` times (so never more than `MAX_RETRIES`), and the trace
ends with the permanent-failure error log — nothing, in particular no further
delete call, follows it. -/
theorem C3_bounded_retry_with_doubling_backoff (ch ts id : String)
    (cM ttlM sM cF ttlF sF MR : Int)
    (resM resF : Nat → Option String) (wM wF : Nat → Nat)
    (hfailM : ∀ i, ∃ e, resM i = some e ∧ e ≠ "message_not_found")
    (hfailF : ∀ i, ∃ e, resF i = some e ∧ e ≠ "file_deleted") :
    (((deleteMessageTask ch ts cM ttlM sM false MR resM wM).filter
        (fun ev => isDeleteApi ev.act)).length = MR.toNat ∧
      sleepDurations (deleteMessageTask ch ts cM ttlM sM false MR resM wM) =
        (List.range MR.toNat).map (fun k => 2 ^ k) ∧
      ∃ t pre, deleteMessageTask ch ts cM ttlM sM false MR resM wM =
        pre ++ [⟨t, .logError ("Failed to delete message " ++ ch ++ "(" ++ ts ++ ")")⟩]) ∧
    (((deleteFileTask id cF ttlF sF false MR resF wF).filter
        (fun ev => isDeleteApi ev.act)).length = MR.toNat ∧
      sleepDurations (deleteFileTask id cF ttlF sF false MR resF wF) =
        (List.range MR.toNat).map (fun k => 2 ^ k) ∧
      ∃ t pre, deleteFileTask id cF ttlF sF false MR resF wF =
        pre ++ [⟨t, .logError ("Failed to delete file " ++ id)⟩]) := by
  obtain ⟨m1, m2, t, pre, m3⟩ :=
    deleteMessageRetry_all_fail ch ts resM wM hfailM MR.toNat 0
      (max sM (toBeDeleted cM ttlM)) 1
  obtain ⟨f1, f2, t', pre', f3⟩ :=
    deleteFileRetry_all_fail id resF wF hfailF MR.toNat 0 (max sF (cF + ttlF)) 1
  refine ⟨⟨?_, ?_, t, ?_, ?_⟩, ?_, ?_, t', ?_, ?_⟩
  · simpa [deleteMessageTask, List.filter_cons, isDeleteApi] using m1
  · simpa [deleteMessageTask, sleepDurations, List.filterMap_cons, one_mul] using m2
  · exact ⟨max sM (toBeDeleted cM ttlM),
      .logInfo ("Delete message: " ++ ch ++ "(" ++ ts ++ ")")⟩ :: pre
  · simp only [deleteMessageTask, Bool.false_eq_true, if_false, m3, List.cons_append]
  · simpa [deleteFileTask, List.filter_cons, isDeleteApi] using f1
  · simpa [deleteFileTask, sleepDurations, List.filterMap_cons, one_mul] using f2
  · exact ⟨max sF (cF + ttlF), .logInfo ("Delete File: id=" ++ id)⟩ :: pre'
  · simp only [deleteFileTask, Bool.false_eq_true, if_false, f3, List.cons_append]

/-- Witness for C3 at a concrete all-failing task: message channel `C001`,
`MAX_RETRIES = 2`, every attempt answering the error `internal_error`:
exactly 2 delete calls and backoff sleeps `1, 2`. -/
theorem C3_bounded_retry_with_doubling_backoff_witness :
    ((deleteMessageTask "C001" "1500000000.000100" 0 600 0 false 2
        (fun _ => some "internal_error") (fun _ => 0)).filter
      (fun ev => isDeleteApi ev.act)).length = (2 : Int).toNat ∧
    sleepDurations (deleteMessageTask "C001" "1500000000.000100" 0 600 0 false 2
        (fun _ => some "internal_error") (fun _ => 0)) =
      (List.range (2 : Int).toNat).map (fun k => 2 ^ k) ∧
    ((deleteFileTask "F001" 0 600 0 false 2
        (fun _ => some "internal_error") (fun _ => 0)).filter
      (fun ev => isDeleteApi ev.act)).length = (2 : Int).toNat :=
  ⟨(C3_bounded_retry_with_doubling_backoff "C001" "1500000000.000100" "F001"
      0 600 0 0 600 0 2 (fun _ => some "internal_error")
      (fun _ => some "internal_error") (fun _ => 0) (fun _ => 0)
      (fun _ => ⟨"internal_error", rfl, by decide⟩)
      (fun _ => ⟨"internal_error", rfl, by decide⟩)).1.1,
   (C3_bounded_retry_with_doubling_backoff "C001" "1500000000.000100" "F001"
      0 600 0 0 600 0 2 (fun _ => some "internal_error")
      (fun _ => some "internal_error") (fun _ => 0) (fun _ => 0)
      (fun _ => ⟨"internal_error", rfl, by decide⟩)
      (fun _ => ⟨"internal_error", rfl, by decide⟩)).1.2.1,
   (C3_bounded_retry_with_doubling_backoff "C001" "1500000000.000100" "F001"
      0 600 0 0 600 0 2 (fun _ => some "internal_error")
      (fun _ => some "internal_error") (fun _ => 0) (fun _ => 0)
      (fun _ => ⟨"internal_error", rfl, by decide⟩)
      (fun _ => ⟨"internal_error", rfl, by decide⟩)).2.1⟩

/-- C5: a delete call answered with the "already absent" error class
(`message_not_found` for messages, `file_deleted` for files) ends the task as
a success on that same attempt: the trace is identical to the trace of a task
whose call plainly succeeds, it contains exactly one delete call, and no
error log line. -/
theorem C5_already_absent_is_success (ch ts id : String)
    (cM ttlM sM cF ttlF sF MR : Int)
    (resM resF : Nat → Option String) (wM wF : Nat → Nat)
    (hM : resM 0 = some "message_not_found")
    (hF : resF 0 = some "file_deleted")
    (hMR : 1 ≤ MR) :
    (deleteMessageTask ch ts cM ttlM sM false MR resM wM =
      deleteMessageTask ch ts cM ttlM sM false MR
        (fun i => if i = 0 then none else resM i) wM ∧
     ((deleteMessageTask ch ts cM ttlM sM false MR resM wM).filter
        (fun ev => isDeleteApi ev.act)).length = 1 ∧
     (deleteMessageTask ch ts cM ttlM sM false MR resM wM).filter
        (fun ev => isLogError ev.act) = []) ∧
    (deleteFileTask id cF ttlF sF false MR resF wF =
      deleteFileTask id cF ttlF sF false MR
        (fun i => if i = 0 then none else resF i) wF ∧
     ((deleteFileTask id cF ttlF sF false MR resF wF).filter
        (fun ev => isDeleteApi ev.act)).length = 1 ∧
     (deleteFileTask id cF ttlF sF false MR resF wF).filter
        (fun ev => isLogError ev.act) = []) := by
  obtain ⟨k, hk⟩ : ∃ k, MR.toNat = k + 1 := ⟨MR.toNat - 1, by omega⟩
  have em := deleteMessageRetry_done_step ch ts resM wM k 0
    (max sM (toBeDeleted cM ttlM)) 1 (Or.inr hM)
  have em' := deleteMessageRetry_done_step ch ts
    (fun i => if i = 0 then none else resM i) wM k 0
    (max sM (toBeDeleted cM ttlM)) 1 (Or.inl rfl)
  have ef := deleteFileRetry_done_step id resF wF k 0
    (max sF (cF + ttlF)) 1 (Or.inr hF)
  have ef' := deleteFileRetry_done_step id
    (fun i => if i = 0 then none else resF i) wF k 0
    (max sF (cF + ttlF)) 1 (Or.inl rfl)
  refine ⟨⟨?_, ?_, ?_⟩, ?_, ?_, ?_⟩ <;>
    simp [deleteMessageTask, deleteFileTask, hk, em, em', ef, ef',
      List.filter_cons, isDeleteApi, isLogError]

/-- Witness for C5: `MAX_RETRIES = 5` (the flag default), first message
attempt answered `message_not_found`, first file attempt answered
`file_deleted`: each task performs exactly one delete call and logs no
error. -/
theorem C5_already_absent_is_success_witness :
    ((deleteMessageTask "C001" "1500000000.000100" 0 600 0 false 5
        (fun _ => some "message_not_found") (fun _ => 0)).filter
      (fun ev => isDeleteApi ev.act)).length = 1 ∧
    (deleteFileTask "F001" 0 600 0 false 5
        (fun _ => some "file_deleted") (fun _ => 0)).filter
      (fun ev => isLogError ev.act) = [] :=
  ⟨(C5_already_absent_is_success "C001" "1500000000.000100" "F001"
      0 600 0 0 600 0 5 (fun _ => some "message_not_found")
      (fun _ => some "file_deleted") (fun _ => 0) (fun _ => 0)
      rfl rfl (by decide)).1.2.1,
   (C5_already_absent_is_success "C001" "1500000000.000100" "F001"
      0 600 0 0 600 0 5 (fun _ => some "message_not_found")
      (fun _ => some "file_deleted") (fun _ => 0) (fun _ => 0)
      rfl rfl (by decide)).2.2.2⟩

/-- Every event of the message retry loop happens at or after the instant the
loop was entered (token waits are non-negative, backoffs stay non-negative). -/
theorem deleteMessageRetry_time_mono (ch ts : String)
    (results : Nat → Option String) (w : Nat → Nat) :
    ∀ (f i : Nat) (now b : Int), 0 ≤ b →
      ∀ ev ∈ deleteMessageRetry ch ts results w f i now b, now ≤ ev.time := by
  intro f
  induction f with
  | zero =>
    intro i now b _ ev hev
    simp [deleteMessageRetry] at hev
    simp [hev]
  | succ f ih =>
    intro i now b hb ev hev
    rcases hres : results i with _ | e
    · rw [deleteMessageRetry_done_step ch ts results w f i now b (Or.inl hres)] at hev
      simp at hev
      rcases hev with h | h | h <;> simp [h]
    · by_cases he : e = "message_not_found"
      · rw [he] at hres
        rw [deleteMessageRetry_done_step ch ts results w f i now b (Or.inr hres)] at hev
        simp at hev
        rcases hev with h | h | h <;> simp [h]
      · rw [deleteMessageRetry_fail_step ch ts results w f i now b e hres he] at hev
        simp at hev
        rcases hev with h | h | h | h | h
        · simp [h]
        · simp [h]
        · simp [h]
        · simp [h]
        · have := ih (i + 1) (now + w i + b) (b * 2) (by omega) ev h
          omega

/-- Every event of the file retry loop happens at or after the instant the
loop was entered. -/
theorem deleteFileRetry_time_mono (id : String)
    (results : Nat → Option String) (w : Nat → Nat) :
    ∀ (f i : Nat) (now b : Int), 0 ≤ b →
      ∀ ev ∈ deleteFileRetry id results w f i now b, now ≤ ev.time := by
  intro f
  induction f with
  | zero =>
    intro i now b _ ev hev
    simp [deleteFileRetry] at hev
    simp [hev]
  | succ f ih =>
    intro i now b hb ev hev
    rcases hres : results i with _ | e
    · rw [deleteFileRetry_done_step id results w f i now b (Or.inl hres)] at hev
      simp at hev
      rcases hev with h | h | h <;> simp [h]
    · by_cases he : e = "file_deleted"
      · rw [he] at hres
        rw [deleteFileRetry_done_step id results w f i now b (Or.inr hres)] at hev
        simp at hev
        rcases hev with h | h | h <;> simp [h]
      · rw [deleteFileRetry_fail_step id results w f i now b e hres he] at hev
        simp at hev
        rcases hev with h | h | h | h | h
        · simp [h]
        · simp [h]
        · simp [h]
        · simp [h]
        · have := ih (i + 1) (now + w i + b) (b * 2) (by omega) ev h
          omega

/-- C6: a deletion task's external delete attempts all happen at or after the
due instant `c + ttl`, never before; and when `c + ttl` is already past at
task start `s`, the task proceeds immediately: its first event happens right
at `s` (the sleep `tbd.Sub(time.Now())` is non-positive and fires at once). -/
theorem C6_no_attempt_before_due (ch ts id : String)
    (cM ttlM sM cF ttlF sF MR : Int) (dryM dryF : Bool)
    (resM resF : Nat → Option String) (wM wF : Nat → Nat) :
    (∀ ev ∈ deleteMessageTask ch ts cM ttlM sM dryM MR resM wM,
      isDeleteApi ev.act = true → cM + ttlM ≤ ev.time) ∧
    (cM + ttlM ≤ sM →
      (deleteMessageTask ch ts cM ttlM sM dryM MR resM wM).head? =
        some ⟨sM, .logInfo ("Delete message: " ++ ch ++ "(" ++ ts ++ ")")⟩) ∧
    (∀ ev ∈ deleteFileTask id cF ttlF sF dryF MR resF wF,
      isDeleteApi ev.act = true → cF + ttlF ≤ ev.time) ∧
    (cF + ttlF ≤ sF →
      (deleteFileTask id cF ttlF sF dryF MR resF wF).head? =
        some ⟨sF, .logInfo ("Delete File: id=" ++ id)⟩) := by
  refine ⟨?_, ?_, ?_, ?_⟩
  · intro ev hev hapi
    cases dryM <;> simp [deleteMessageTask, toBeDeleted] at hev
    · rcases hev with h | h
      · rw [h] at hapi; simp [isDeleteApi] at hapi
      · have hmono := deleteMessageRetry_time_mono ch ts resM wM MR.toNat 0
          (max sM (toBeDeleted cM ttlM)) 1 (by omega) ev h
        have hle : cM + ttlM ≤ max sM (toBeDeleted cM ttlM) := le_max_right _ _
        exact le_trans hle hmono
    · rw [hev] at hapi; simp [isDeleteApi] at hapi
  · intro h
    simp [deleteMessageTask, toBeDeleted, max_eq_left h]
  · intro ev hev hapi
    cases dryF <;> simp [deleteFileTask] at hev
    · rcases hev with h | h
      · rw [h] at hapi; simp [isDeleteApi] at hapi
      · have hmono := deleteFileRetry_time_mono id resF wF MR.toNat 0
          (max sF (cF + ttlF)) 1 (by omega) ev h
        have hle : cF + ttlF ≤ max sF (cF + ttlF) := le_max_right _ _
        exact le_trans hle hmono
    · rw [hev] at hapi; simp [isDeleteApi] at hapi
  · intro h
    simp [deleteFileTask, max_eq_left h]

/-- Witness for C6: a message created at 0 with TTL 600 in a task starting at
700 (discovered late, due already past): every delete attempt is at or after
600, and the first event happens immediately at 700. -/
theorem C6_no_attempt_before_due_witness :
    (∀ ev ∈ deleteMessageTask "C001" "1500000000.000100" 0 600 700 false 5
        (fun _ => none) (fun _ => 0),
      isDeleteApi ev.act = true → 0 + 600 ≤ ev.time) ∧
    (deleteMessageTask "C001" "1500000000.000100" 0 600 700 false 5
        (fun _ => none) (fun _ => 0)).head? =
      some ⟨700, .logInfo ("Delete message: " ++ "C001" ++ "(" ++
        "1500000000.000100" ++ ")")⟩ :=
  ⟨(C6_no_attempt_before_due "C001" "1500000000.000100" "F001"
      0 600 700 0 600 700 5 false false (fun _ => none) (fun _ => none)
      (fun _ => 0) (fun _ => 0)).1,
   (C6_no_attempt_before_due "C001" "1500000000.000100" "F001"
      0 600 700 0 600 700 5 false false (fun _ => none) (fun _ => none)
      (fun _ => 0) (fun _ => 0)).2.1 (by decide)⟩

/-- Every action of a history walk is a token acquisition or a history call
for that same channel. -/
theorem inspectHistoryTrace_mem (ch : String) (hm : Nat → Bool) :
    ∀ (f k : Nat), ∀ a ∈ inspectHistoryTrace ch hm f k,
      a = Action.acquireToken ∨ a = Action.callGetChannelHistory ch := by
  intro f
  induction f with
  | zero => intro k a h; simp [inspectHistoryTrace] at h
  | succ f ih =>
    intro k a h
    by_cases hk : hm k = true <;> simp [inspectHistoryTrace, hk] at h
    · rcases h with h | h | h
      · exact Or.inl h
      · exact Or.inr h
      · exact ih (k + 1) a h
    · rcases h with h | h
      · exact Or.inl h
      · exact Or.inr h

/-- The file walk never performs a channel-history call. -/
theorem inspectFilesTrace_no_history (fp : Nat → List File × Int × Int) :
    ∀ (f p : Nat) (ch : String),
      Action.callGetChannelHistory ch ∉ inspectFilesTrace fp f p := by
  intro f
  induction f with
  | zero => intro p ch h; simp [inspectFilesTrace] at h
  | succ f ih =>
    intro p ch h
    simp [inspectFilesTrace] at h
    rcases h with ⟨file, _, hmem⟩ | h
    · by_cases hc : file.Channels.length = 0 <;> simp [handleFileTrace, hc] at hmem
    · by_cases hp : (fp p).2.1 = (fp p).2.2 <;> simp [hp] at h
      exact ih (p + 1) ch h

/-- A single-channel policy map whose one entry sets `message_ttl = -1`, the
configuration that separates the scan guard from the resolved TTL. -/
def cfgNegTTL : String → Option Config := fun ch =>
  if ch = "C002" then some ⟨"neg", -1, 0⟩ else none

/-- Counterexample to C2 as stated: with a per-channel `message_ttl` of `-1`
and a global default of 0, channel `C002`'s resolved message TTL is 0 (not
positive), yet `inspectPast` does not skip the channel — its guard compares
both values to 0 literally, not the resolved TTL to 0 — and the scan's trace
does contain the history call for `C002`. -/
theorem C2_counterexample :
    effMessageTTL cfgNegTTL 0 "C002" ≤ 0 ∧
    inspectPastSkips cfgNegTTL 0 "C002" = false ∧
    Action.callGetChannelHistory "C002" ∈
      inspectPastTrace cfgNegTTL 0 ["C002"] (fun _ _ => false) 1
        (fun _ => ([], 1, 1)) 1 := by
  refine ⟨by decide, by decide, ?_⟩
  simp [inspectPastTrace, inspectHistoryTrace, inspectPastSkips, cfgMessageTTL,
    cfgNegTTL]

/-- C2 amended: during a reconciliation scan a channel's history is paginated
if and only if NOT (the global default message TTL is exactly 0 and the
channel's configured message TTL is exactly 0); in particular, when both
values are non-negative this coincides with the claim's "resolved message TTL
> 0".  Membership of the channel's history call in the scan trace follows the
same guard. -/
theorem C2_scan_guard (CONFIG_BY_ID : String → Option Config) (dflt : Int)
    (ch : String) (channels : List String) (hasMore : String → Nat → Bool)
    (histFuel filesFuel : Nat) (filesPage : Nat → List File × Int × Int) :
    (inspectPastSkips CONFIG_BY_ID dflt ch = true ↔
      (dflt = 0 ∧ cfgMessageTTL CONFIG_BY_ID ch = 0)) ∧
    (0 ≤ dflt → 0 ≤ cfgMessageTTL CONFIG_BY_ID ch →
      (inspectPastSkips CONFIG_BY_ID dflt ch = true ↔
        effMessageTTL CONFIG_BY_ID dflt ch ≤ 0)) ∧
    (ch ∈ channels → inspectPastSkips CONFIG_BY_ID dflt ch = false →
      Action.callGetChannelHistory ch ∈
        inspectPastTrace CONFIG_BY_ID dflt channels hasMore (histFuel + 1)
          filesPage filesFuel) ∧
    (inspectPastSkips CONFIG_BY_ID dflt ch = true →
      Action.callGetChannelHistory ch ∉
        inspectPastTrace CONFIG_BY_ID dflt channels hasMore histFuel
          filesPage filesFuel) := by
  have hskip : inspectPastSkips CONFIG_BY_ID dflt ch = true ↔
      (dflt = 0 ∧ cfgMessageTTL CONFIG_BY_ID ch = 0) := by
    simp [inspectPastSkips]
  refine ⟨hskip, ?_, ?_, ?_⟩
  · intro h1 h2
    rw [hskip]
    unfold effMessageTTL
    by_cases hc : cfgMessageTTL CONFIG_BY_ID ch > 0 <;> simp [hc] <;> omega
  · intro hch hns
    simp only [inspectPastTrace, List.mem_cons, List.mem_append]
    refine Or.inr (Or.inr (Or.inl ?_))
    rw [List.mem_flatMap]
    refine ⟨ch, hch, ?_⟩
    rw [if_neg (by simp [hns])]
    simp [inspectHistoryTrace]
  · intro hs hmem
    simp only [inspectPastTrace, List.mem_cons, List.mem_append] at hmem
    rcases hmem with h | h | h | h
    · exact absurd h (by simp)
    · exact absurd h (by simp)
    · rw [List.mem_flatMap] at h
      obtain ⟨ch', hch', hmem'⟩ := h
      by_cases he : inspectPastSkips CONFIG_BY_ID dflt ch' = true
      · rw [if_pos he] at hmem'
        simp at hmem'
      · rw [if_neg he] at hmem'
        rcases inspectHistoryTrace_mem ch' (hasMore ch') histFuel 0 _ hmem' with
          h | h
        · exact absurd h (by simp)
        · have : ch' = ch := by injection h with hh; exact hh.symm
          exact he (this ▸ hs)
    · exact inspectFilesTrace_no_history filesPage filesFuel 1 ch h

/-- Witness for C2's amended statement: with the `cfgNegTTL` map and default
0, channel `C002` is scanned (guard false) and its history call appears in
the trace; an unconfigured channel `C999` under default 0 is skipped. -/
theorem C2_scan_guard_witness :
    Action.callGetChannelHistory "C002" ∈
      inspectPastTrace cfgNegTTL 0 ["C002"] (fun _ _ => false) 1
        (fun _ => ([], 1, 1)) 1 ∧
    Action.callGetChannelHistory "C999" ∉
      inspectPastTrace cfgNegTTL 0 ["C999"] (fun _ _ => false) 1
        (fun _ => ([], 1, 1)) 1 :=
  ⟨(C2_scan_guard cfgNegTTL 0 "C002" ["C002"] (fun _ _ => false) 0 1
      (fun _ => ([], 1, 1))).2.2.1 (by decide) (by decide),
   (C2_scan_guard cfgNegTTL 0 "C999" ["C999"] (fun _ _ => false) 1 1
      (fun _ => ([], 1, 1))).2.2.2 (by decide)⟩

/-- A trace paced with no previous action is paced after any previous action:
the first element's check only gets weaker. -/
theorem pacedFrom_mono (e : Action → Bool) :
    ∀ (l : List Action), pacedFrom e none l = true →
      ∀ (p : Option Action), pacedFrom e p l = true := by
  intro l
  cases l with
  | nil => intro _ p; rfl
  | cons a rest =>
    intro h p
    simp only [pacedFrom, Bool.and_eq_true, Bool.or_eq_true] at h ⊢
    refine ⟨?_, h.2⟩
    rcases h.1 with (h1 | h1) | h1
    · exact Or.inl (Or.inl h1)
    · exact Or.inl (Or.inr h1)
    · exact absurd h1 (by decide)

/-- Concatenation of a paced trace with a self-paced trace is paced. -/
theorem pacedFrom_append (e : Action → Bool) :
    ∀ (l1 : List Action) (p : Option Action) (l2 : List Action),
      pacedFrom e p l1 = true → pacedFrom e none l2 = true →
      pacedFrom e p (l1 ++ l2) = true := by
  intro l1
  induction l1 with
  | nil => intro p l2 _ h2; exact pacedFrom_mono e l2 h2 p
  | cons a rest ih =>
    intro p l2 h1 h2
    simp only [List.cons_append, pacedFrom, Bool.and_eq_true] at h1 ⊢
    exact ⟨h1.1, ih (some a) l2 h1.2 h2⟩

/-- A concatenation of self-paced chunks is self-paced. -/
theorem pacedFrom_flatMap {α : Type} (e : Action → Bool) (g : α → List Action) :
    ∀ (xs : List α), (∀ x ∈ xs, pacedFrom e none (g x) = true) →
      pacedFrom e none (xs.flatMap g) = true := by
  intro xs
  induction xs with
  | nil => intro _; rfl
  | cons x rest ih =>
    intro h
    rw [List.flatMap_cons]
    exact pacedFrom_append e (g x) none (rest.flatMap g)
      (h x (List.mem_cons_self x rest))
      (ih fun y hy => h y (List.mem_cons_of_mem x hy))

/-- The file-info refetch of `handleFile` is always preceded by a token. -/
theorem handleFileTrace_paced (e : Action → Bool) (file : File) :
    pacedFrom e none (handleFileTrace file) = true := by
  by_cases h : file.Channels.length = 0 <;>
    simp [handleFileTrace, h, pacedFrom, isApiCall]

/-- Every history call of `inspectHistory` is preceded by a token. -/
theorem inspectHistoryTrace_paced (e : Action → Bool) (ch : String)
    (hm : Nat → Bool) :
    ∀ (f k : Nat), pacedFrom e none (inspectHistoryTrace ch hm f k) = true := by
  intro f
  induction f with
  | zero => intro k; rfl
  | succ f ih =>
    intro k
    simp only [inspectHistoryTrace]
    by_cases hk : hm k = true
    · rw [if_pos hk]
      simp only [pacedFrom, Bool.and_eq_true]
      exact ⟨by simp [isApiCall], by simp [isApiCall],
        pacedFrom_mono e _ (ih (k + 1)) _⟩
    · rw [if_neg hk]
      simp [pacedFrom, isApiCall]

/-- In `inspectFiles`, every API call other than the `GetFiles` page calls
themselves is preceded by a token (the `GetFiles` calls are exempted — they
have no preceding acquisition). -/
theorem inspectFilesTrace_paced :
    ∀ (f p : Nat) (fp : Nat → List File × Int × Int),
      pacedFrom isGetFiles none (inspectFilesTrace fp f p) = true := by
  intro f
  induction f with
  | zero => intro p fp; rfl
  | succ f ih =>
    intro p fp
    simp only [inspectFilesTrace, pacedFrom, Bool.and_eq_true]
    refine ⟨by simp [isGetFiles], pacedFrom_mono _ _ ?_ _⟩
    refine pacedFrom_append isGetFiles _ none _
      (pacedFrom_flatMap _ _ _ fun x _ => handleFileTrace_paced _ x) ?_
    by_cases hp : ((fp p).2.1 : Int) = (fp p).2.2
    · rw [if_pos hp]; rfl
    · rw [if_neg hp]; exact ih (p + 1) fp

/-- In the whole reconciliation scan, every API call except the `GetFiles`
page calls is immediately preceded by a token acquisition. -/
theorem inspectPastTrace_paced (CONFIG_BY_ID : String → Option Config)
    (dflt : Int) (channels : List String) (hasMore : String → Nat → Bool)
    (histFuel : Nat) (filesPage : Nat → List File × Int × Int)
    (filesFuel : Nat) :
    pacedFrom isGetFiles none
      (inspectPastTrace CONFIG_BY_ID dflt channels hasMore histFuel
        filesPage filesFuel) = true := by
  simp only [inspectPastTrace, pacedFrom, Bool.and_eq_true]
  refine ⟨by simp [isApiCall], by simp [isApiCall], pacedFrom_mono _ _ ?_ _⟩
  refine pacedFrom_append isGetFiles _ none _
    (pacedFrom_flatMap _ _ _ fun ch _ => ?_)
    (inspectFilesTrace_paced filesFuel 1 filesPage)
  by_cases hs : inspectPastSkips CONFIG_BY_ID dflt ch = true
  · rw [if_pos hs]; rfl
  · rw [if_neg hs]; exact inspectHistoryTrace_paced _ ch _ histFuel 0

/-- Every delete attempt of the message retry loop is preceded by a token. -/
theorem deleteMessageRetry_paced (ch ts : String)
    (res : Nat → Option String) (w : Nat → Nat) :
    ∀ (f i : Nat) (now b : Int),
      pacedFrom noExempt none
        ((deleteMessageRetry ch ts res w f i now b).map Event.act) = true := by
  intro f
  induction f with
  | zero => intro i now b; rfl
  | succ f ih =>
    intro i now b
    rcases hres : res i with _ | e
    · rw [deleteMessageRetry_done_step ch ts res w f i now b (Or.inl hres)]; rfl
    · by_cases he : e = "message_not_found"
      · rw [he] at hres
        rw [deleteMessageRetry_done_step ch ts res w f i now b (Or.inr hres)]
        rfl
      · rw [deleteMessageRetry_fail_step ch ts res w f i now b e hres he]
        simp only [List.map_cons, pacedFrom, Bool.and_eq_true]
        exact ⟨by simp [isApiCall], by simp [isApiCall], by simp [isApiCall],
          by simp [isApiCall], pacedFrom_mono _ _ (ih (i + 1) _ _) _⟩

/-- Every delete attempt of the file retry loop is preceded by a token. -/
theorem deleteFileRetry_paced (id : String)
    (res : Nat → Option String) (w : Nat → Nat) :
    ∀ (f i : Nat) (now b : Int),
      pacedFrom noExempt none
        ((deleteFileRetry id res w f i now b).map Event.act) = true := by
  intro f
  induction f with
  | zero => intro i now b; rfl
  | succ f ih =>
    intro i now b
    rcases hres : res i with _ | e
    · rw [deleteFileRetry_done_step id res w f i now b (Or.inl hres)]; rfl
    · by_cases he : e = "file_deleted"
      · rw [he] at hres
        rw [deleteFileRetry_done_step id res w f i now b (Or.inr hres)]
        rfl
      · rw [deleteFileRetry_fail_step id res w f i now b e hres he]
        simp only [List.map_cons, pacedFrom, Bool.and_eq_true]
        exact ⟨by simp [isApiCall], by simp [isApiCall], by simp [isApiCall],
          by simp [isApiCall], pacedFrom_mono _ _ (ih (i + 1) _ _) _⟩

/-- Counterexample to C1 as stated: a reconciliation scan over an empty
channel list whose single file page closes the loop produces the trace
`[acquireToken, GetConversations, GetFiles page 1]`.  The `GetFiles` call —
`inspectFiles`' file listing, main.go:292 — is an external API call whose
immediate predecessor is not a token acquisition, so the scan's trace is not
fully paced. -/
theorem C1_counterexample :
    paced noExempt
      (inspectPastTrace cfgDevNull 0 [] (fun _ _ => false) 0
        (fun _ => ([], 1, 1)) 1) = false := by
  rfl

/-- C1 amended: every external call of the program except the `GetFiles` file
listing of `inspectFiles` and the startup `GetConversations` of `initTTL` is
immediately preceded by a rate-limiter token acquisition: the whole
reconciliation scan is paced once `GetFiles` is exempted, both delete-task
traces and the file-info refetch are paced with no exemption at all, and
`initTTL`'s trace is the bare channel-listing call (unpaced). -/
theorem C1_token_before_calls :
    (∀ (CONFIG_BY_ID : String → Option Config) (dflt : Int)
       (channels : List String) (hasMore : String → Nat → Bool)
       (histFuel : Nat) (filesPage : Nat → List File × Int × Int)
       (filesFuel : Nat),
      paced isGetFiles
        (inspectPastTrace CONFIG_BY_ID dflt channels hasMore histFuel
          filesPage filesFuel) = true) ∧
    (∀ (ch ts : String) (c ttl s : Int) (dry : Bool) (MR : Int)
       (res : Nat → Option String) (w : Nat → Nat),
      paced noExempt
        ((deleteMessageTask ch ts c ttl s dry MR res w).map Event.act) = true) ∧
    (∀ (id : String) (c ttl s : Int) (dry : Bool) (MR : Int)
       (res : Nat → Option String) (w : Nat → Nat),
      paced noExempt
        ((deleteFileTask id c ttl s dry MR res w).map Event.act) = true) ∧
    (∀ file : File, paced noExempt (handleFileTrace file) = true) ∧
    (∀ CONFIG_FILE : String, CONFIG_FILE ≠ "" →
      initTTLTrace CONFIG_FILE = [Action.callGetConversations] ∧
      paced noExempt (initTTLTrace CONFIG_FILE) = false) := by
  refine ⟨?_, ?_, ?_, ?_, ?_⟩
  · exact fun cfg dflt chans hm hf fp ff =>
      inspectPastTrace_paced cfg dflt chans hm hf fp ff
  · intro ch ts c ttl s dry MR res w
    cases dry
    · simp only [deleteMessageTask, Bool.false_eq_true, if_false,
        List.map_cons, paced, pacedFrom, Bool.and_eq_true]
      exact ⟨by simp [isApiCall],
        pacedFrom_mono _ _ (deleteMessageRetry_paced ch ts res w MR.toNat 0 _ 1) _⟩
    · rfl
  · intro id c ttl s dry MR res w
    cases dry
    · simp only [deleteFileTask, Bool.false_eq_true, if_false,
        List.map_cons, paced, pacedFrom, Bool.and_eq_true]
      exact ⟨by simp [isApiCall],
        pacedFrom_mono _ _ (deleteFileRetry_paced id res w MR.toNat 0 _ 1) _⟩
    · rfl
  · exact fun file => handleFileTrace_paced noExempt file
  · intro CONFIG_FILE h
    rw [initTTLTrace, if_neg h]
    exact ⟨rfl, rfl⟩

/-- Witness for C1's amended statement at concrete inputs: a scan over the
README-style configuration is paced modulo `GetFiles`, a live delete task is
fully paced, and `initTTL` with a named config file issues its channel
listing with no token. -/
theorem C1_token_before_calls_witness :
    paced isGetFiles
      (inspectPastTrace cfgDevNull 600 ["C001"] (fun _ _ => false) 2
        (fun _ => ([⟨"F001", ["C001"]⟩], 1, 1)) 2) = true ∧
    paced noExempt
      ((deleteMessageTask "C001" "1500000000.000100" 0 600 0 false 5
        (fun _ => none) (fun _ => 0)).map Event.act) = true ∧
    initTTLTrace "config.json" = [Action.callGetConversations] :=
  ⟨(C1_token_before_calls).1 cfgDevNull 600 ["C001"] (fun _ _ => false) 2
      (fun _ => ([⟨"F001", ["C001"]⟩], 1, 1)) 2,
   (C1_token_before_calls).2.1 "C001" "1500000000.000100" 0 600 0 false 5
      (fun _ => none) (fun _ => 0),
   ((C1_token_before_calls).2.2.2.2 "config.json" (by decide)).1⟩

end SlackBlackhole
